import Mathlib

/-
  Verification of the OHCA quality-control time-reconciliation engine.

  Shallow embedding of the TypeScript source:
    - src/unnamed/part_000 (services/timeUtils.ts): getOffsetMs,
      calculateCorrectedAedTime
    - src/components/PreviewModal.tsx: calculateMMSSSeconds,
      calculateInterruption, getSafeDuration, manualCCF
    - src/components/TimeRecording.tsx: getValidationError (rosc branch)
    - src/unnamed/part_001: roscMismatch

  JavaScript value semantics are made explicit:
    - A raw timestamp string is abstracted by `RawValue`: the empty string
      (the only falsy string occurring), the literal sentinel string "N/A",
      a string that `new Date(s)` parses to a finite millisecond instant,
      or a non-empty unparsable string (`new Date(s).getTime()` is NaN).
    - A JS number that may be NaN is `JsNum`; a JS `Date` object is `JsDate`
      (an Invalid Date is a real, truthy object whose getTime() is NaN).
    - `null` is `Option.none`.
-/

namespace OhcaQc

/-- Abstraction of a raw timestamp string as the source code discriminates it:
empty string (falsy), the "N/A" sentinel, a parseable instant with its
millisecond value, or a non-empty unparsable string. -/
inductive RawValue where
  | empty
  | na
  | time (ms : Int)
  | invalid
deriving DecidableEq, Repr

/-- JS string truthiness: among strings only the empty string is falsy. -/
def RawValue.falsy : RawValue → Bool
  | .empty => true
  | _ => false

/-- `new Date(s).getTime()` as a partial value: `some ms` when the string
parses, `none` when the result is NaN (empty, "N/A" or unparsable). -/
def RawValue.parseMs : RawValue → Option Int
  | .time ms => some ms
  | _ => none

/-- A JS number that may be NaN. -/
inductive JsNum where
  | num (n : Int)
  | nan
deriving DecidableEq, Repr

/-- A JS `Date` object: either a valid instant or an Invalid Date
(a truthy object whose `getTime()` returns NaN). -/
inductive JsDate where
  | valid (ms : Int)
  | invalid
deriving DecidableEq, Repr

/-- `Date.prototype.getTime`. -/
def JsDate.getTime : JsDate → JsNum
  | .valid ms => .num ms
  | .invalid => .nan

/-- One observer's calibration pair (key-device time, AED-displayed time). -/
structure CalEntry where
  keyTime : RawValue
  aedTime : RawValue
deriving DecidableEq, Repr

/-- The calibration record with its three observer entries. -/
structure Calibration where
  emt1 : CalEntry
  emt2 : CalEntry
  emt3 : CalEntry
deriving DecidableEq, Repr

/-- src/unnamed/part_000 lines 3-6:
`if (!keyTime || !aedTime) return 0;`
`return new Date(keyTime).getTime() - new Date(aedTime).getTime();`
Empty on either side yields the number 0; non-empty but unparsable on either
side yields NaN (NaN arithmetic). -/
def getOffsetMs (keyTime aedTime : RawValue) : JsNum :=
  if keyTime.falsy || aedTime.falsy then .num 0
  else
    match keyTime.parseMs, aedTime.parseMs with
    | some k, some a => .num (k - a)
    | _, _ => .nan

/-- A raw observation: either a direct single string field or a
three-observer candidate record (`{emt1, emt2, emt3}`). -/
inductive Observation where
  | direct (v : RawValue)
  | multi (emt1 emt2 emt3 : RawValue)
deriving DecidableEq, Repr

/-- `const emtTime = emt ? new Date(emt).getTime() : null` followed by the
truthiness test `if (emtTime)`: the branch is taken only when the value is a
number that is neither 0 nor NaN.  Returns that number exactly when the
`if (emtTime)` guard passes. -/
def truthyTime : RawValue → Option Int
  | .time ms => if ms = 0 then none else some ms
  | _ => none

/-- `new Date(emtTime - offset)`: subtracting a NaN offset produces an
Invalid Date. -/
def dateSub (ms : Int) (off : JsNum) : JsDate :=
  match off with
  | .num n => .valid (ms - n)
  | .nan => .invalid

/-- src/unnamed/part_000 lines 39-74 (`calculateCorrectedAedTime`):
direct string fields map "N/A" and "" to null and keep the parsed Date
otherwise (an unparsable string keeps the Invalid Date object); multi-observer
fields short-circuit to null when any candidate is "N/A", then walk
EMT1 -> EMT2 -> EMT3 and return the first truthy parsed time minus that
observer's offset. -/
def calculateCorrectedAedTime (recordData : Observation)
    (calibration : Calibration) : Option JsDate :=
  match recordData with
  | .direct v =>
    match v with
    | .na => none
    | .empty => none
    | .time ms => some (.valid ms)
    | .invalid => some .invalid
  | .multi emt1 emt2 emt3 =>
    if emt1 = .na ∨ emt2 = .na ∨ emt3 = .na then none
    else
      let offset1 := getOffsetMs calibration.emt1.keyTime calibration.emt1.aedTime
      let offset2 := getOffsetMs calibration.emt2.keyTime calibration.emt2.aedTime
      let offset3 := getOffsetMs calibration.emt3.keyTime calibration.emt3.aedTime
      match truthyTime emt1 with
      | some ms => some (dateSub ms offset1)
      | none =>
        match truthyTime emt2 with
        | some ms => some (dateSub ms offset2)
        | none =>
          match truthyTime emt3 with
          | some ms => some (dateSub ms offset3)
          | none => none

/-- src/components/PreviewModal.tsx lines 126-137 (`getSafeDuration`):
null on a null endpoint; otherwise `(end - start) / 1000`, plus 86400 when
the difference is below -43200, then `Math.floor`.  An Invalid Date endpoint
is truthy, so it passes the null check and NaN flows through the arithmetic
(`Math.floor(NaN)` is NaN). -/
def getSafeDuration (start stop : Option JsDate) : Option JsNum :=
  match start, stop with
  | some s, some e =>
    match s.getTime, e.getTime with
    | .num a, .num b =>
      let diff : ℚ := (b - a) / 1000
      let diff := if diff < -43200 then diff + 86400 else diff
      some (.num (Int.floor diff))
    | _, _ => some .nan
  | _, _ => none

/-- Whitespace characters skipped by JS `parseInt` on the inputs at hand. -/
def jsIsWs (c : Char) : Bool :=
  c == ' ' || c == '\t' || c == '\n' || c == '\r'

/-- Skip leading whitespace, as `parseInt` does. -/
def skipWs : List Char → List Char
  | [] => []
  | c :: cs => if jsIsWs c then skipWs cs else c :: cs

/-- Accumulate the maximal leading run of decimal digits (radix 10). -/
def parseDigits : List Char → Nat → Nat
  | [], acc => acc
  | c :: cs, acc => if c.isDigit then parseDigits cs (10 * acc + (c.toNat - 48)) else acc

/-- Value of the leading digit run; `none` (NaN) when the first character is
not a digit. -/
def digitsVal : List Char → Option Nat
  | [] => none
  | c :: cs => if c.isDigit then some (parseDigits (c :: cs) 0) else none

/-- JS `parseInt(s, 10)` on a character list: skip whitespace, accept an
optional sign, then read the longest digit prefix; NaN (`none`) when no
digit follows.  Trailing garbage is ignored, so "1a" parses as 1. -/
def jsParseIntL (cs : List Char) : Option Int :=
  match skipWs cs with
  | [] => none
  | c :: rest =>
    if c = '-' then (digitsVal rest).map (fun n => -(n : Int))
    else if c = '+' then (digitsVal rest).map (fun n => (n : Int))
    else (digitsVal (c :: rest)).map (fun n => (n : Int))

/-- src/components/PreviewModal.tsx lines 87-93 (`calculateMMSSSeconds`):
reject strings whose length is not 4, then `parseInt` the two halves
(`substring(0,2)` and `substring(2,4)`) and return `mins*60 + secs`,
or 0 when either `parseInt` gives NaN. -/
def calculateMMSSSeconds (mmss : String) : Int :=
  let cs := mmss.data
  if cs.length ≠ 4 then 0
  else
    match jsParseIntL (cs.take 2), jsParseIntL (cs.drop 2) with
    | some mins, some secs => mins * 60 + secs
    | _, _ => 0

/-- One CPR-interruption interval; the source field `end` is a Lean keyword,
hence the guillemets. -/
structure InterruptionItem where
  start : String
  «end» : String
  reason : String
deriving DecidableEq, Repr

/-- src/components/PreviewModal.tsx lines 95-102 (`calculateInterruption`):
reduce over the interval list, adding `end - start` when positive and 0
otherwise. -/
def calculateInterruption (items : List InterruptionItem) : Int :=
  items.foldl
    (fun acc item =>
      let startSec := calculateMMSSSeconds item.start
      let endSec := calculateMMSSSeconds item.«end»
      acc + (if startSec < endSec then endSec - startSec else 0))
    0

/-- The manual-CCF display string, one constructor per shape the source
produces: the literal 'N/A', the literal '時間錯誤' (time error), the string
'NaN%' (`toFixed` of NaN), or a percentage with one decimal place carried as
its value in tenths (833 stands for '83.3%'). -/
inductive CCFResult where
  | na
  | timeError
  | pctNaN
  | pct (tenths : Int)
deriving DecidableEq, Repr

/-- `(x * 100).toFixed(1)` for `x = c / t`, as tenths of a percent: the
nearest integer to `1000 * c / t`, ties resolved upward (ECMAScript picks
the larger candidate). -/
def jsToFixed1Tenths (c t : Int) : Int :=
  Int.floor ((c * 1000 : ℚ) / t + 1 / 2)

/-- `duration !== null ? duration - interruption : null` with NaN flowing
through the subtraction. -/
def subInterruption : Option JsNum → Int → Option JsNum
  | none, _ => none
  | some (.num n), k => some (.num (n - k))
  | some .nan, _ => some .nan

/-- JS addition on possibly-NaN numbers. -/
def jsAdd : JsNum → JsNum → JsNum
  | .num a, .num b => .num (a + b)
  | _, _ => .nan

/-- `x > 0` in JS; false for NaN. -/
def jsGtZero : JsNum → Bool
  | .num n => decide (0 < n)
  | .nan => false

/-- `x <= 0` in JS; false for NaN. -/
def jsLeZero : JsNum → Bool
  | .num n => decide (n ≤ 0)
  | .nan => false

/-- `((totalComp / totalDuration) * 100).toFixed(1) + '%'`: a NaN operand
renders as 'NaN%'. -/
def pctOf : JsNum → JsNum → CCFResult
  | .num c, .num t => .pct (jsToFixed1Tenths c t)
  | _, _ => .pctNaN

/-- src/components/PreviewModal.tsx lines 153-187 (manual CCF): pre-AED and
pre-MCPR compression times are the corresponding safe durations minus the
interruption totals; the denominator is judgment->MCPR, or judgment->AED-off
when MCPR is flagged N/A; the percentage is emitted when both addends are
non-null and the denominator is positive, '時間錯誤' when the denominator is
non-null and <= 0, and 'N/A' otherwise. -/
def manualCCF (ohca pads mcpr aedOff : Option JsDate) (isMcprNA : Bool)
    (interruptionPads interruptionMcpr : Int) : CCFResult :=
  let durationOhcaToPads := getSafeDuration ohca pads
  let timeInCompPreAed := subInterruption durationOhcaToPads interruptionPads
  let durationPadsToMcpr :=
    if isMcprNA then getSafeDuration pads aedOff else getSafeDuration pads mcpr
  let timeInCompPreMcpr := subInterruption durationPadsToMcpr interruptionMcpr
  let totalDuration :=
    if isMcprNA then getSafeDuration ohca aedOff else getSafeDuration ohca mcpr
  match totalDuration with
  | none => .na
  | some t =>
    if jsGtZero t then
      match timeInCompPreAed, timeInCompPreMcpr with
      | some a, some b => pctOf (jsAdd a b) t
      | _, _ => if jsLeZero t then .timeError else .na
    else if jsLeZero t then .timeError else .na

/-- src/unnamed/part_001 lines 464-467 (`roscMismatch`): with both corrected
instants present (Invalid Dates are truthy), flag when the absolute distance
exceeds 1000 ms; any comparison against NaN is false, and a null endpoint
yields false. -/
def roscMismatch (rosc aedOff : Option JsDate) : Bool :=
  match rosc, aedOff with
  | some r, some a =>
    match r.getTime, a.getTime with
    | .num x, .num y => decide (1000 < |x - y|)
    | _, _ => false
  | _, _ => false

/-- src/components/TimeRecording.tsx lines 89-106, the `rosc` branch of
`getValidationError`: given the corrected instant of the ROSC input under
edit and the corrected AED-off instant, report a violation when
`!(Math.abs(cur - aedOff) < 1000)`.  A null or Invalid current instant
reports no violation (the `isNaN` guard); a null AED-off makes `isEqual`
vacuously true; an Invalid AED-off date is truthy and its NaN comparison
makes `isEqual` false, hence a violation. -/
def getValidationErrorRosc (cur aedOff : Option JsDate) : Bool :=
  match cur with
  | none => false
  | some .invalid => false
  | some (.valid r) =>
    match aedOff with
    | none => false
    | some d =>
      match d.getTime with
      | .num y => ! decide (|r - y| < 1000)
      | .nan => true

/-- Follows the spec's words, for comparison with `getOffsetMs`:
"offset(observer) -> milliseconds | null.  Computes keyTime.toInstant() -
referenceTime.toInstant().  Returns null if either side is unset or
unparsable." -/
def getOffsetMsSpec (keyTime aedTime : RawValue) : Option Int :=
  match keyTime.parseMs, aedTime.parseMs with
  | some k, some a => some (k - a)
  | _, _ => none

/-- A 4-character all-digit string, the "4-character MMSS digit string"
shape named by the spec. -/
def isNumeric4 (s : String) : Bool :=
  s.data.length == 4 && s.data.all (fun c => c.isDigit)

/-- The value `minutes*60 + seconds` read off the four digit characters. -/
def mmssVal : List Char → Int
  | [a, b, c, d] =>
    ((10 * (a.toNat - 48) + (b.toNat - 48) : Nat) : Int) * 60 +
      ((10 * (c.toNat - 48) + (d.toNat - 48) : Nat) : Int)
  | _ => 0

/-- A calibration record with every field left blank. -/
def emptyCalibration : Calibration :=
  ⟨⟨.empty, .empty⟩, ⟨.empty, .empty⟩, ⟨.empty, .empty⟩⟩

/-! ## Theorems -/

lemma cast_sub_int (s e : Int) : ((e : ℚ) - s) = ((e - s : Int) : ℚ) := by
  push_cast
  ring

lemma div1000_lt_iff (d : Int) :
    ((d : ℚ) / 1000 < -43200) ↔ (d < -43200000) := by
  rw [div_lt_iff₀ (by norm_num : (0 : ℚ) < 1000)]
  norm_num
  exact_mod_cast Iff.rfl

/-- getSafeDuration on two valid instants, rewritten over the integer
millisecond difference. -/
lemma getSafeDuration_valid (s e : Int) :
    getSafeDuration (some (JsDate.valid s)) (some (JsDate.valid e)) =
      some (JsNum.num (Int.floor
        (((e - s + if e - s < -43200000 then 86400000 else 0 : Int) : ℚ) / 1000))) := by
  have h0 : getSafeDuration (some (JsDate.valid s)) (some (JsDate.valid e)) =
      some (JsNum.num (Int.floor
        (if ((e : ℚ) - s) / 1000 < -43200
         then ((e : ℚ) - s) / 1000 + 86400
         else ((e : ℚ) - s) / 1000))) := rfl
  rw [h0, cast_sub_int]
  by_cases h : e - s < -43200000
  · rw [if_pos ((div1000_lt_iff (e - s)).mpr h), if_pos h]
    congr 2
    push_cast
    ring_nf
  · rw [if_neg (fun hc => h ((div1000_lt_iff (e - s)).mp hc)), if_neg h]
    norm_num

/-- C5: for non-null valid endpoints, getSafeDuration is the floor of the
millisecond difference, day-rollover-shifted by +86400000 ms when the raw
difference is below -43200000 ms, divided by 1000; it is null when either
endpoint is null; and the 23:59:00 -> 00:01:00 same-day pair yields 120. -/
theorem c5_safe_duration_rollover :
    (∀ s e : Int,
      getSafeDuration (some (JsDate.valid s)) (some (JsDate.valid e)) =
        some (JsNum.num (Int.floor
          (((e - s + if e - s < -43200000 then 86400000 else 0 : Int) : ℚ) / 1000)))) ∧
    (∀ x, getSafeDuration none x = none) ∧
    (∀ x, getSafeDuration x none = none) ∧
    getSafeDuration (some (JsDate.valid 86340000)) (some (JsDate.valid 60000)) =
      some (JsNum.num 120) := by
  refine ⟨getSafeDuration_valid, fun x => rfl, ?_, ?_⟩
  · intro x
    cases x <;> rfl
  · rw [getSafeDuration_valid]
    norm_num

/-- C3: in a multi-observer observation, any candidate equal to the "N/A"
sentinel makes the whole observation resolve to null, regardless of the other
candidates. -/
theorem c3_sentinel_short_circuit (e1 e2 e3 : RawValue) (cal : Calibration)
    (h : e1 = RawValue.na ∨ e2 = RawValue.na ∨ e3 = RawValue.na) :
    calculateCorrectedAedTime (.multi e1 e2 e3) cal = none := by
  simp only [calculateCorrectedAedTime]
  rw [if_pos h]

/-- Witness for C3: observer 1 marked "N/A" while observers 2 and 3 carry
real instants still resolves to null. -/
theorem c3_sentinel_short_circuit_witness :
    calculateCorrectedAedTime
      (.multi RawValue.na (RawValue.time 5000) (RawValue.time 7000))
      emptyCalibration = none :=
  c3_sentinel_short_circuit RawValue.na (RawValue.time 5000) (RawValue.time 7000)
    emptyCalibration (Or.inl rfl)

/-- C4 counterexample: with an empty key time the spec-worded offset is null,
but the source returns the number 0; with an unparsable key time it returns
NaN.  The source function never returns null at all. -/
theorem c4_offset_counterexample :
    getOffsetMsSpec RawValue.empty (RawValue.time 5000) = none ∧
    getOffsetMs RawValue.empty (RawValue.time 5000) = JsNum.num 0 ∧
    getOffsetMs RawValue.invalid (RawValue.time 5000) = JsNum.nan :=
  ⟨rfl, rfl, rfl⟩

/-- C4 amended: offset equals keyTime - referenceTime in milliseconds when
both sides are present and parseable; it is the number 0 (not null) when
either side is unset/empty, and NaN (not null) when both are non-empty but
either is unparsable. -/
theorem c4_offset_amended (k a : RawValue) :
    (∀ km am : Int, k = RawValue.time km → a = RawValue.time am →
      getOffsetMs k a = JsNum.num (km - am)) ∧
    (k.falsy = true ∨ a.falsy = true → getOffsetMs k a = JsNum.num 0) ∧
    (k.falsy = false → a.falsy = false →
      (k.parseMs = none ∨ a.parseMs = none) → getOffsetMs k a = JsNum.nan) := by
  refine ⟨?_, ?_, ?_⟩
  · rintro km am rfl rfl
    rfl
  · intro h
    unfold getOffsetMs
    rcases h with h | h <;> simp [h]
  · intro hk ha h
    unfold getOffsetMs
    rw [hk, ha]
    simp only [Bool.or_self, Bool.false_eq_true, if_false]
    rcases h with h | h
    · rw [h]
    · rw [h]
      cases k.parseMs <;> rfl

/-- Witness for C4 amended: a parseable pair 8 s apart yields offset 5000 ms
after subtracting. -/
theorem c4_offset_amended_witness :
    getOffsetMs (RawValue.time 8000) (RawValue.time 3000) = JsNum.num (8000 - 3000) :=
  (c4_offset_amended (RawValue.time 8000) (RawValue.time 3000)).1 8000 3000 rfl rfl

/-- C9 counterexample: a direct unparsable string resolves to an Invalid
Date object, not to null, and it propagates through getSafeDuration as NaN
rather than null. -/
theorem c9_direct_resolution_counterexample :
    calculateCorrectedAedTime (.direct RawValue.invalid) emptyCalibration =
      some JsDate.invalid ∧
    some JsDate.invalid ≠ (none : Option JsDate) ∧
    getSafeDuration (some JsDate.invalid) (some (JsDate.valid 0)) = some JsNum.nan :=
  ⟨rfl, by decide, rfl⟩

/-- C9 amended: a direct observation resolves "N/A" to null, the empty
string to null, a parseable string to its instant; an unparsable string
resolves to an Invalid Date (a non-null value whose time is NaN) and nothing
throws. -/
theorem c9_direct_resolution_amended (cal : Calibration) :
    calculateCorrectedAedTime (.direct RawValue.na) cal = none ∧
    calculateCorrectedAedTime (.direct RawValue.empty) cal = none ∧
    (∀ ms : Int, calculateCorrectedAedTime (.direct (RawValue.time ms)) cal =
      some (JsDate.valid ms)) ∧
    calculateCorrectedAedTime (.direct RawValue.invalid) cal = some JsDate.invalid :=
  ⟨rfl, rfl, fun _ => rfl, rfl⟩

/-- C2 counterexample: observer 1's candidate parsing to the epoch instant 0
is a non-empty, non-"N/A" value, yet JS truthiness skips it and observer 2's
candidate wins: the result is not observer 1's corrected value 0 - 0. -/
theorem c2_priority_counterexample :
    calculateCorrectedAedTime
      (.multi (RawValue.time 0) (RawValue.time 60000) RawValue.empty)
      emptyCalibration = some (JsDate.valid 60000) ∧
    some (JsDate.valid 60000) ≠ some (JsDate.valid (0 - 0)) := by
  exact ⟨rfl, by decide⟩

/-- C2 amended: when observer 1's candidate parses to a non-zero instant and
no candidate is "N/A", resolution returns observer 1's instant minus observer
1's calibration offset, ignoring observers 2 and 3 entirely. -/
theorem c2_priority_amended (ms : Int) (e2 e3 : RawValue) (cal : Calibration)
    (hms : ms ≠ 0) (h2 : e2 ≠ RawValue.na) (h3 : e3 ≠ RawValue.na) :
    calculateCorrectedAedTime (.multi (RawValue.time ms) e2 e3) cal =
      some (dateSub ms (getOffsetMs cal.emt1.keyTime cal.emt1.aedTime)) := by
  simp only [calculateCorrectedAedTime]
  rw [if_neg]
  · simp [truthyTime, hms]
  · rintro (h | h | h)
    · exact RawValue.noConfusion h
    · exact h2 h
    · exact h3 h

/-- Witness for C2 amended: observer 1 at 5000 ms beats observer 2 at
7000 ms. -/
theorem c2_priority_amended_witness :
    calculateCorrectedAedTime
      (.multi (RawValue.time 5000) (RawValue.time 7000) RawValue.empty)
      emptyCalibration =
      some (dateSub 5000 (getOffsetMs RawValue.empty RawValue.empty)) :=
  c2_priority_amended 5000 (RawValue.time 7000) RawValue.empty emptyCalibration
    (by decide) (by decide) (by decide)

/-- C8 counterexample: observer 2 wins with no calibration pair at all, and
the source still returns the candidate corrected by a silent zero offset
instead of null. -/
theorem c8_missing_calibration_counterexample :
    calculateCorrectedAedTime
      (.multi RawValue.empty (RawValue.time 60000) RawValue.empty)
      emptyCalibration = some (JsDate.valid 60000) ∧
    some (JsDate.valid 60000) ≠ (none : Option JsDate) :=
  ⟨rfl, by decide⟩

/-- C8 amended: when the winning candidate belongs to observer 2 or to
observer 3 — observer 1 (and, for an observer-3 winner, observer 2) holding
any skipped shape: empty, unparsable, or parsing to 0 — and that winning
observer's calibration pair has an unset side, the offset defaults to the
number 0 and the candidate is returned uncorrected — not null. -/
theorem c8_missing_calibration_amended (ms : Int) (cal : Calibration) (hms : ms ≠ 0) :
    (∀ e1 e3 : RawValue, e1 ≠ RawValue.na → truthyTime e1 = none →
      e3 ≠ RawValue.na →
      (cal.emt2.keyTime.falsy = true ∨ cal.emt2.aedTime.falsy = true) →
      calculateCorrectedAedTime (.multi e1 (RawValue.time ms) e3) cal =
        some (JsDate.valid ms)) ∧
    (∀ e1 e2 : RawValue, e1 ≠ RawValue.na → truthyTime e1 = none →
      e2 ≠ RawValue.na → truthyTime e2 = none →
      (cal.emt3.keyTime.falsy = true ∨ cal.emt3.aedTime.falsy = true) →
      calculateCorrectedAedTime (.multi e1 e2 (RawValue.time ms)) cal =
        some (JsDate.valid ms)) := by
  constructor
  · intro e1 e3 h1 ht1 h3 hk
    simp only [calculateCorrectedAedTime]
    rw [if_neg]
    · have hoff : getOffsetMs cal.emt2.keyTime cal.emt2.aedTime = JsNum.num 0 := by
        unfold getOffsetMs
        rcases hk with h | h <;> simp [h]
      have htm : truthyTime (RawValue.time ms) = some ms := by
        simp [truthyTime, hms]
      simp [ht1, htm, hoff, dateSub]
    · rintro (h | h | h)
      · exact h1 h
      · exact RawValue.noConfusion h
      · exact h3 h
  · intro e1 e2 h1 ht1 h2 ht2 hk
    simp only [calculateCorrectedAedTime]
    rw [if_neg]
    · have hoff : getOffsetMs cal.emt3.keyTime cal.emt3.aedTime = JsNum.num 0 := by
        unfold getOffsetMs
        rcases hk with h | h <;> simp [h]
      have htm : truthyTime (RawValue.time ms) = some ms := by
        simp [truthyTime, hms]
      simp [ht1, ht2, htm, hoff, dateSub]
    · rintro (h | h | h)
      · exact h1 h
      · exact h2 h
      · exact RawValue.noConfusion h

/-- Witness for C8 amended: with the winning observer's calibration blank,
its candidate at 60000 ms resolves uncorrected — for an observer-2 winner
and an observer-3 winner alike. -/
theorem c8_missing_calibration_amended_witness :
    calculateCorrectedAedTime
      (.multi RawValue.empty (RawValue.time 60000) RawValue.empty)
      emptyCalibration = some (JsDate.valid 60000) ∧
    calculateCorrectedAedTime
      (.multi RawValue.empty RawValue.empty (RawValue.time 60000))
      emptyCalibration = some (JsDate.valid 60000) :=
  ⟨(c8_missing_calibration_amended 60000 emptyCalibration (by decide)).1
      RawValue.empty RawValue.empty (by decide) rfl (by decide) (Or.inl rfl),
   (c8_missing_calibration_amended 60000 emptyCalibration (by decide)).2
      RawValue.empty RawValue.empty (by decide) rfl (by decide) rfl (Or.inl rfl)⟩

/-- C7: on two resolved valid instants, both the preview-page roscMismatch
and the recording-page validator leave a distance of at most 999 ms
unflagged and flag a distance of exactly 1001 ms; a null endpoint on either
side is never flagged by either. -/
theorem c7_rosc_tolerance (r a : Int) :
    (|r - a| ≤ 999 →
      roscMismatch (some (JsDate.valid r)) (some (JsDate.valid a)) = false ∧
      getValidationErrorRosc (some (JsDate.valid r)) (some (JsDate.valid a)) = false) ∧
    (|r - a| = 1001 →
      roscMismatch (some (JsDate.valid r)) (some (JsDate.valid a)) = true ∧
      getValidationErrorRosc (some (JsDate.valid r)) (some (JsDate.valid a)) = true) ∧
    (∀ x, roscMismatch none x = false) ∧
    (∀ x, roscMismatch x none = false) ∧
    (∀ x, getValidationErrorRosc none x = false) ∧
    (∀ x, getValidationErrorRosc x none = false) := by
  refine ⟨?_, ?_, fun x => rfl, ?_, fun x => rfl, ?_⟩
  · intro h
    constructor
    · simp only [roscMismatch, JsDate.getTime]
      exact decide_eq_false (not_lt.mpr (h.trans (by norm_num)))
    · simp only [getValidationErrorRosc, JsDate.getTime, Bool.not_eq_false']
      exact decide_eq_true (lt_of_le_of_lt h (by norm_num))
  · intro h
    constructor
    · simp only [roscMismatch, JsDate.getTime]
      exact decide_eq_true (by rw [h]; norm_num)
    · simp only [getValidationErrorRosc, JsDate.getTime, Bool.not_eq_true']
      exact decide_eq_false (by rw [h]; norm_num)
  · intro x
    cases x <;> rfl
  · intro x
    rcases x with _ | d
    · rfl
    · cases d <;> rfl

/-- Witness for C7: 999 ms apart is unflagged, 1001 ms apart is flagged. -/
theorem c7_rosc_tolerance_witness :
    roscMismatch (some (JsDate.valid 0)) (some (JsDate.valid 999)) = false ∧
    roscMismatch (some (JsDate.valid 0)) (some (JsDate.valid 1001)) = true :=
  ⟨((c7_rosc_tolerance 0 999).1 (by decide)).1,
   ((c7_rosc_tolerance 0 1001).2.1 (by decide)).1⟩

lemma digit_not_special (c : Char) (h : c.isDigit = true) :
    jsIsWs c = false ∧ c ≠ '-' ∧ c ≠ '+' := by
  refine ⟨?_, ?_, ?_⟩
  · by_contra hw
    rw [Bool.not_eq_false] at hw
    simp only [jsIsWs, Bool.or_eq_true, beq_iff_eq] at hw
    rcases hw with ((rfl | rfl) | rfl) | rfl <;> exact absurd h (by decide)
  · rintro rfl
    exact absurd h (by decide)
  · rintro rfl
    exact absurd h (by decide)

lemma skipWs_cons_of_digit (a : Char) (cs : List Char) (h : jsIsWs a = false) :
    skipWs (a :: cs) = a :: cs := by
  simp [skipWs, h]

lemma jsParseIntL_two_digits (a b : Char) (ha : a.isDigit = true) (hb : b.isDigit = true) :
    jsParseIntL [a, b] =
      some ((10 * (a.toNat - 48) + (b.toNat - 48) : Nat) : Int) := by
  obtain ⟨hwa, hma, hpa⟩ := digit_not_special a ha
  simp only [jsParseIntL, skipWs_cons_of_digit a [b] hwa]
  rw [if_neg hma, if_neg hpa]
  simp [digitsVal, parseDigits, ha, hb]

lemma calculateMMSSSeconds_numeric (s : String) (h : isNumeric4 s = true) :
    calculateMMSSSeconds s = mmssVal s.data := by
  obtain ⟨cs⟩ := s
  simp only [isNumeric4, Bool.and_eq_true, beq_iff_eq, List.all_eq_true] at h
  obtain ⟨hlen, hall⟩ := h
  match cs, hlen with
  | [a, b, c, d], _ =>
    have ha : a.isDigit = true := hall a (by simp)
    have hb : b.isDigit = true := hall b (by simp)
    have hc : c.isDigit = true := hall c (by simp)
    have hd : d.isDigit = true := hall d (by simp)
    simp only [calculateMMSSSeconds, mmssVal]
    rw [if_neg (by simp)]
    simp only [List.take, List.drop]
    rw [jsParseIntL_two_digits a b ha hb, jsParseIntL_two_digits c d hc hd]

lemma calculateInterruption_foldl (g : InterruptionItem → Int)
    (hg : ∀ it, isNumeric4 it.start = true → isNumeric4 it.«end» = true →
      (if calculateMMSSSeconds it.start < calculateMMSSSeconds it.«end»
       then calculateMMSSSeconds it.«end» - calculateMMSSSeconds it.start else 0) = g it)
    (items : List InterruptionItem)
    (h : ∀ it ∈ items, isNumeric4 it.start = true ∧ isNumeric4 it.«end» = true) :
    ∀ acc : Int,
      items.foldl
        (fun acc item =>
          let startSec := calculateMMSSSeconds item.start
          let endSec := calculateMMSSSeconds item.«end»
          acc + (if startSec < endSec then endSec - startSec else 0))
        acc = acc + (items.map g).sum := by
  induction items with
  | nil =>
    intro acc
    simp
  | cons it tl ih =>
    intro acc
    obtain ⟨h1, h2⟩ := h it (List.mem_cons_self it tl)
    simp only [List.foldl_cons, List.map_cons, List.sum_cons]
    rw [ih (fun x hx => h x (List.mem_cons_of_mem _ hx))]
    rw [hg it h1 h2]
    ring

/-- C6 counterexample: the boundary "1a30" is 4 characters but not numeric,
yet `parseInt` accepts the digit-prefixed half "1a" as 1, so the boundary
parses as 90 seconds instead of counting as zero, and an interval ending
there contributes 90, not 0. -/
theorem c6_interruption_counterexample :
    isNumeric4 ("1a30") = false ∧
    calculateMMSSSeconds ("1a30") = 90 ∧
    calculateInterruption [⟨"0000", "1a30", ""⟩] = 90 ∧
    (90 : Int) ≠ 0 := by decide

/-- C6 amended: over intervals whose boundaries are all-digit 4-character
strings, calculateInterruption sums end - start exactly over the intervals
with end > start and adds 0 for the rest; any boundary that is not exactly
4 characters parses as zero; and the spec's worked example totals 24
seconds.  (A 4-character non-numeric boundary whose 2-character halves both
start with a digit parses by `parseInt` prefix rules instead of counting as
zero.) -/
theorem c6_interruption_amended :
    (∀ items : List InterruptionItem,
      (∀ it ∈ items, isNumeric4 it.start = true ∧ isNumeric4 it.«end» = true) →
      calculateInterruption items =
        (items.map (fun it =>
          if mmssVal it.start.data < mmssVal it.«end».data
          then mmssVal it.«end».data - mmssVal it.start.data else 0)).sum) ∧
    (∀ s : String, s.data.length ≠ 4 → calculateMMSSSeconds s = 0) ∧
    calculateInterruption [⟨"1106", "1130", ""⟩, ⟨"1200", "1150", ""⟩] = 24 := by
  refine ⟨?_, ?_, by decide⟩
  · intro items h
    have hfold := calculateInterruption_foldl
      (fun it =>
        if mmssVal it.start.data < mmssVal it.«end».data
        then mmssVal it.«end».data - mmssVal it.start.data else 0)
      (fun it h1 h2 => by
        rw [calculateMMSSSeconds_numeric it.start h1,
          calculateMMSSSeconds_numeric it.«end» h2])
      items h 0
    simpa [calculateInterruption] using hfold
  · intro s h
    simp only [calculateMMSSSeconds]
    rw [if_pos h]

/-- Witness for C6 amended: the all-digit example list satisfies the
numeric-boundary hypothesis and matches the per-interval sum. -/
theorem c6_interruption_amended_witness :
    calculateInterruption [⟨"1106", "1130", ""⟩, ⟨"1200", "1150", ""⟩] =
      (([⟨"1106", "1130", ""⟩, ⟨"1200", "1150", ""⟩] : List InterruptionItem).map
        (fun it =>
          if mmssVal it.start.data < mmssVal it.«end».data
          then mmssVal it.«end».data - mmssVal it.start.data else 0)).sum :=
  c6_interruption_amended.1 _ (by decide)

lemma getSafeDuration_none_right (x : Option JsDate) : getSafeDuration x none = none := by
  cases x <;> rfl

lemma getSafeDuration_none_left (x : Option JsDate) : getSafeDuration none x = none := rfl

lemma manualCCF_pct (o p m ip im : Int) (aedOff : Option JsDate) (dop dpm td : Int)
    (h1 : getSafeDuration (some (JsDate.valid o)) (some (JsDate.valid p)) =
      some (JsNum.num dop))
    (h2 : getSafeDuration (some (JsDate.valid p)) (some (JsDate.valid m)) =
      some (JsNum.num dpm))
    (h3 : getSafeDuration (some (JsDate.valid o)) (some (JsDate.valid m)) =
      some (JsNum.num td))
    (htd : 0 < td) :
    manualCCF (some (JsDate.valid o)) (some (JsDate.valid p)) (some (JsDate.valid m))
      aedOff false ip im =
      CCFResult.pct (Int.floor
        (((dop - ip + (dpm - im) : Int) : ℚ) * 1000 / td + 1 / 2)) := by
  have hgt : jsGtZero (JsNum.num td) = true := decide_eq_true htd
  simp [manualCCF, h1, h2, h3, subInterruption, jsAdd, pctOf, hgt, jsToFixed1Tenths]

lemma manualCCF_pct_mcprNA (o p a ip im : Int) (mcpr : Option JsDate) (dop dpa td : Int)
    (h1 : getSafeDuration (some (JsDate.valid o)) (some (JsDate.valid p)) =
      some (JsNum.num dop))
    (h2 : getSafeDuration (some (JsDate.valid p)) (some (JsDate.valid a)) =
      some (JsNum.num dpa))
    (h3 : getSafeDuration (some (JsDate.valid o)) (some (JsDate.valid a)) =
      some (JsNum.num td))
    (htd : 0 < td) :
    manualCCF (some (JsDate.valid o)) (some (JsDate.valid p)) mcpr
      (some (JsDate.valid a)) true ip im =
      CCFResult.pct (Int.floor
        (((dop - ip + (dpa - im) : Int) : ℚ) * 1000 / td + 1 / 2)) := by
  have hgt : jsGtZero (JsNum.num td) = true := decide_eq_true htd
  simp [manualCCF, h1, h2, h3, subInterruption, jsAdd, pctOf, hgt, jsToFixed1Tenths]

/-- C1 counterexample: a non-null, non-positive denominator (judgment and
MCPR-setup at the same corrected instant) makes manual CCF the '時間錯誤'
sentinel, not the 'N/A' sentinel the claim names. -/
theorem c1_manual_ccf_counterexample :
    manualCCF (some (JsDate.valid 1000)) (some (JsDate.valid 2000))
      (some (JsDate.valid 1000)) none false 0 0 = CCFResult.timeError ∧
    CCFResult.timeError ≠ CCFResult.na := by
  constructor
  · have h1 : getSafeDuration (some (JsDate.valid 1000)) (some (JsDate.valid 2000)) =
        some (JsNum.num 1) := by
      rw [getSafeDuration_valid]
      norm_num
    have h2 : getSafeDuration (some (JsDate.valid 2000)) (some (JsDate.valid 1000)) =
        some (JsNum.num (-1)) := by
      rw [getSafeDuration_valid]
      norm_num
    have h3 : getSafeDuration (some (JsDate.valid 1000)) (some (JsDate.valid 1000)) =
        some (JsNum.num 0) := by
      rw [getSafeDuration_valid]
      norm_num
    simp [manualCCF, h1, h2, h3, subInterruption, jsGtZero, jsLeZero]
  · decide

/-- C1 amended: with all needed instants resolved and a positive
denominator, manual CCF is `(preAedComp + preMcprComp) / totalDuration *
100` rounded to tenths of a percent, where the addends subtract the
interruption totals from safeDuration(judgment,pads) and
safeDuration(pads,MCPR) (pads->AED-off and judgment->AED-off when MCPR is
flagged not-performed); it is 'N/A' when an addend or the denominator is
null and the denominator is not a non-positive number; it is the distinct
'時間錯誤' sentinel (not 'N/A') whenever the denominator is non-null and
<= 0; and the worked example yields 83.3%. -/
theorem c1_manual_ccf_amended :
    (∀ (o p m ip im : Int) (aedOff : Option JsDate) (dop dpm td : Int),
      getSafeDuration (some (JsDate.valid o)) (some (JsDate.valid p)) =
        some (JsNum.num dop) →
      getSafeDuration (some (JsDate.valid p)) (some (JsDate.valid m)) =
        some (JsNum.num dpm) →
      getSafeDuration (some (JsDate.valid o)) (some (JsDate.valid m)) =
        some (JsNum.num td) →
      0 < td →
      manualCCF (some (JsDate.valid o)) (some (JsDate.valid p)) (some (JsDate.valid m))
        aedOff false ip im =
        CCFResult.pct (Int.floor
          (((dop - ip + (dpm - im) : Int) : ℚ) * 1000 / td + 1 / 2))) ∧
    (∀ (o p a ip im : Int) (mcpr : Option JsDate) (dop dpa td : Int),
      getSafeDuration (some (JsDate.valid o)) (some (JsDate.valid p)) =
        some (JsNum.num dop) →
      getSafeDuration (some (JsDate.valid p)) (some (JsDate.valid a)) =
        some (JsNum.num dpa) →
      getSafeDuration (some (JsDate.valid o)) (some (JsDate.valid a)) =
        some (JsNum.num td) →
      0 < td →
      manualCCF (some (JsDate.valid o)) (some (JsDate.valid p)) mcpr
        (some (JsDate.valid a)) true ip im =
        CCFResult.pct (Int.floor
          (((dop - ip + (dpa - im) : Int) : ℚ) * 1000 / td + 1 / 2))) ∧
    (∀ (o m ip im td : Int) (aedOff : Option JsDate),
      getSafeDuration (some (JsDate.valid o)) (some (JsDate.valid m)) =
        some (JsNum.num td) →
      0 < td →
      manualCCF (some (JsDate.valid o)) none (some (JsDate.valid m)) aedOff false ip im =
        CCFResult.na) ∧
    (∀ (o ip im : Int) (pads aedOff : Option JsDate),
      manualCCF (some (JsDate.valid o)) pads none aedOff false ip im = CCFResult.na) ∧
    (∀ (o m ip im td : Int) (pads aedOff : Option JsDate),
      getSafeDuration (some (JsDate.valid o)) (some (JsDate.valid m)) =
        some (JsNum.num td) →
      td ≤ 0 →
      manualCCF (some (JsDate.valid o)) pads (some (JsDate.valid m)) aedOff false ip im =
        CCFResult.timeError) ∧
    manualCCF (some (JsDate.valid 36000000)) (some (JsDate.valid 36060000))
      (some (JsDate.valid 36180000)) none false 10 20 = CCFResult.pct 833 := by
  refine ⟨?_, ?_, ?_, ?_, ?_, ?_⟩
  · intro o p m ip im aedOff dop dpm td h1 h2 h3 htd
    exact manualCCF_pct o p m ip im aedOff dop dpm td h1 h2 h3 htd
  · intro o p a ip im mcpr dop dpa td h1 h2 h3 htd
    exact manualCCF_pct_mcprNA o p a ip im mcpr dop dpa td h1 h2 h3 htd
  · intro o m ip im td aedOff h3 htd
    have hle : jsLeZero (JsNum.num td) = false := decide_eq_false (not_le.mpr htd)
    simp [manualCCF, h3, hle, subInterruption, getSafeDuration_none_left,
      getSafeDuration_none_right]
  · intro o ip im pads aedOff
    rfl
  · intro o m ip im td pads aedOff h3 htd
    have hgt : jsGtZero (JsNum.num td) = false := decide_eq_false (not_lt.mpr htd)
    have hle : jsLeZero (JsNum.num td) = true := decide_eq_true htd
    simp [manualCCF, h3, hgt, hle]
  · have e1 : getSafeDuration (some (JsDate.valid 36000000)) (some (JsDate.valid 36060000)) =
        some (JsNum.num 60) := by
      rw [getSafeDuration_valid]
      norm_num
    have e2 : getSafeDuration (some (JsDate.valid 36060000)) (some (JsDate.valid 36180000)) =
        some (JsNum.num 120) := by
      rw [getSafeDuration_valid]
      norm_num
    have e3 : getSafeDuration (some (JsDate.valid 36000000)) (some (JsDate.valid 36180000)) =
        some (JsNum.num 180) := by
      rw [getSafeDuration_valid]
      norm_num
    rw [manualCCF_pct 36000000 36060000 36180000 10 20 none 60 120 180 e1 e2 e3
      (by norm_num)]
    norm_num

/-- Witness for C1 amended: the worked example discharges the resolved-
instants and positive-denominator hypotheses and yields 83.3%. -/
theorem c1_manual_ccf_amended_witness :
    manualCCF (some (JsDate.valid 36000000)) (some (JsDate.valid 36060000))
      (some (JsDate.valid 36180000)) none false 10 20 =
      CCFResult.pct (Int.floor (((60 - 10 + (120 - 20) : Int) : ℚ) * 1000 / 180 + 1 / 2)) :=
  c1_manual_ccf_amended.1 36000000 36060000 36180000 10 20 none 60 120 180
    (by rw [getSafeDuration_valid]; norm_num)
    (by rw [getSafeDuration_valid]; norm_num)
    (by rw [getSafeDuration_valid]; norm_num)
    (by norm_num)

end OhcaQc
